import Mathlib

/-
Verification of the WebSpectrometer spectral pipeline against its
natural-language specification.  The JavaScript sources are shallowly
embedded over exact rationals (ℚ): JavaScript numbers are idealized as
rationals, `Math.round` as floor of x + 1/2 (round half toward +∞), and
integer `Math.floor` of non-negative quotients as ℕ division.  Each
definition mirrors one function of the source; theorems settle the
frozen claims about them.
-/

namespace WebSpectrometer

/-- JavaScript `Math.round`: floor of x + 1/2 (round half toward +∞). -/
def jsRound (x : ℚ) : ℤ := ⌊x + 1/2⌋

/-- Rounding to one decimal place, `Math.round(x * 10) / 10`, as used by
`Spectragraph.calculateSensorRange` in src/js/spectragraph.js. -/
def round1 (x : ℚ) : ℚ := (jsRound (x * 10) : ℚ) / 10

/-- One calibration point `{x, wavelength}` of the two-point system. -/
structure CalPoint where
  x : ℚ
  wavelength : ℚ
deriving DecidableEq

/-- The `this.calibration` object `{point1, point2}`. -/
structure Calibration where
  point1 : CalPoint
  point2 : CalPoint
deriving DecidableEq

/-- A wavelength interval `{start, end}`; the JS field `end` is called
`stop` here because `end` is a Lean keyword. -/
structure RangeNm where
  start : ℚ
  stop : ℚ
deriving DecidableEq

/-- The view-state portion of `Spectragraph` that the claims are about:
the stored calibration and the current display range. -/
structure ViewState where
  calibration : Calibration
  displayRange : RangeNm
deriving DecidableEq

/-- The `wavelengthPerPixel` (also called `wavelengthStep`) computed in
`calculateSensorRange`, `draw` and `exportToCSV`:
`(point2.wavelength - point1.wavelength) / (point2.x - point1.x)`. -/
def wavelengthPerPixel (c : Calibration) : ℚ :=
  (c.point2.wavelength - c.point1.wavelength) / (c.point2.x - c.point1.x)

/-- The `startWavelength` of the sensor,
`point1.wavelength - point1.x * wavelengthPerPixel`. -/
def startWavelength (c : Calibration) : ℚ :=
  c.point1.wavelength - c.point1.x * wavelengthPerPixel c

/-- `Spectragraph.calculateSensorRange` from src/js/spectragraph.js:
evaluate the linear map at pixel 0 and pixel 1920, order the two values
with min/max, and round each to one decimal place. -/
def calculateSensorRange (c : Calibration) : RangeNm :=
  let sw := startWavelength c
  let ew := sw + 1920 * wavelengthPerPixel c
  { start := round1 (min sw ew), stop := round1 (max sw ew) }

/-- The default calibration from the `Spectragraph` constructor:
point1 = {x: 1623, wavelength: 405.4}, point2 = {x: 1238, wavelength: 611.6}. -/
def cal0 : Calibration := ⟨⟨1623, 4054/10⟩, ⟨1238, 6116/10⟩⟩

/-- The initial view state: default calibration and
displayRange = {start: 350, end: 1200}. -/
def s0 : ViewState := ⟨cal0, ⟨350, 1200⟩⟩

/-- The clamp-and-test tail shared verbatim by
`Spectragraph.updateDisplayRange` and `Spectragraph.handleZoom` in
src/js/spectragraph.js: clamp the candidate start into
[sensor.start, sensor.end - 50] and the candidate end into
[sensor.start + 50, sensor.end]; commit the new display range when the
clamped span is at least 50 nm, otherwise leave the state unchanged. -/
def clampUpdate (sta sto : ℚ) (s : ViewState) : ViewState :=
  let sr := calculateSensorRange s.calibration
  let newStart := max sr.start (min sta (sr.stop - 50))
  let newEnd := min sr.stop (max sto (sr.start + 50))
  if 50 ≤ newEnd - newStart then
    { s with displayRange := ⟨newStart, newEnd⟩ }
  else s

/-- `Spectragraph.updateDisplayRange` from src/js/spectragraph.js: its
body is exactly the clamp-and-test applied to the parsed inputs. -/
def updateDisplayRange (sta sto : ℚ) (s : ViewState) : ViewState :=
  clampUpdate sta sto s

/-- `Spectragraph.xToWavelength`:
`displayRange.start + (x / canvas.width) * range`. -/
def xToWavelength (width : ℚ) (s : ViewState) (x : ℚ) : ℚ :=
  s.displayRange.start +
    (x / width) * (s.displayRange.stop - s.displayRange.start)

/-- `Spectragraph.handleZoom` from src/js/spectragraph.js.  The zoom
factor 1.1 is the exact rational 11/10.  A negative `deltaY` zooms in
(divides the span by the factor), otherwise the span is multiplied.
The candidate bounds keep the wavelength under the cursor at the same
fractional position, are clamped exactly as in `updateDisplayRange`,
and the display range is updated only when the clamped span is at
least 50 nm. -/
def handleZoom (width mouseX deltaY : ℚ) (s : ViewState) : ViewState :=
  let mouseWavelength := xToWavelength width s mouseX
  let currentRange := s.displayRange.stop - s.displayRange.start
  let newRange :=
    if deltaY < 0 then currentRange / (11/10) else currentRange * (11/10)
  let cursorFrac := (mouseWavelength - s.displayRange.start) / currentRange
  let ns := mouseWavelength - cursorFrac * newRange
  clampUpdate ns (ns + newRange) s

/-- `Spectragraph.updateCalibration` from src/js/spectragraph.js: the
two points replace the stored calibration unconditionally (the rest of
the method only refreshes the sensor-range display element). -/
def updateCalibration (p1 p2 : CalPoint) (s : ViewState) : ViewState :=
  { s with calibration := ⟨p1, p2⟩ }

/-- The calibrate click handler of src/js/main.js: the four inputs are
parsed with parseInt/parseFloat (`none` stands for a NaN parse); when
any parse is NaN an alert is shown and nothing changes, otherwise
`updateCalibration` runs with the parsed points. -/
def calibrateClick (i1x i1w i2x i2w : Option ℚ) (s : ViewState) : ViewState :=
  match i1x, i1w, i2x, i2w with
  | some a, some b, some c, some d => updateCalibration ⟨a, b⟩ ⟨c, d⟩ s
  | _, _, _, _ => s

/-- The invariant maintained by the live `handleZoom`: the display range
is contained in the sensor range and spans at least 50 nm. -/
def zoomInv (s : ViewState) : Prop :=
  (calculateSensorRange s.calibration).start ≤ s.displayRange.start ∧
  s.displayRange.stop ≤ (calculateSensorRange s.calibration).stop ∧
  50 ≤ s.displayRange.stop - s.displayRange.start

instance (s : ViewState) : Decidable (zoomInv s) := by
  unfold zoomInv; infer_instance

/-- A finite sequence of zoom operations, each given by
(canvas width, mouseX, deltaY). -/
def zoomSeq (inputs : List (ℚ × ℚ × ℚ)) (s : ViewState) : ViewState :=
  inputs.foldl (fun t p => handleZoom p.1 p.2.1 p.2.2 t) s

/-- Repeated zoom-in at the left edge of the canvas (mouseX = 0,
deltaY = -1) on a 960-pixel-wide canvas. -/
def zoomInLeft : ℕ → ViewState → ViewState
  | 0, s => s
  | n + 1, s => zoomInLeft n (handleZoom 960 0 (-1) s)

/-- A calibration whose sensor range is exactly {200, 1200}:
point1 = {x: 0, wavelength: 200}, point2 = {x: 1920, wavelength: 1200}. -/
def calExample : Calibration := ⟨⟨0, 200⟩, ⟨1920, 1200⟩⟩

/-- A view state with sensor range {200, 1200} and the initial display
range {350, 1200}. -/
def sExample : ViewState := ⟨calExample, ⟨350, 1200⟩⟩

/-- Canvas x-coordinate scanned at a given offset from the cursor in
`Spectragraph.findNearestPeak` (`x = mouseX + offset`, kept only when
it lies inside the canvas, so it is non-negative when used). -/
def candX (mouseX : ℕ) (off : ℤ) : ℕ := ((mouseX : ℤ) + off).toNat

/-- Whether the scanned x-coordinate lies inside the canvas
(`x >= 0 && x < width`). -/
def inCanvas (width mouseX : ℕ) (off : ℤ) : Prop :=
  0 ≤ (mouseX : ℤ) + off ∧ (mouseX : ℤ) + off < (width : ℤ)

instance (width mouseX : ℕ) (off : ℤ) : Decidable (inCanvas width mouseX off) := by
  unfold inCanvas; infer_instance

/-- The data index scanned at a given offset:
`Math.floor((x / width) * data.length)`, which for non-negative x is
ℕ division `x * data.length / width`. -/
def candIdx (width : ℕ) (data : List ℚ) (mouseX : ℕ) (off : ℤ) : ℕ :=
  candX mouseX off * data.length / width

/-- The data value scanned at a given offset (out-of-range indices read
as 0; the guards of the source keep every actual read in range). -/
def candVal (width : ℕ) (data : List ℚ) (mouseX : ℕ) (off : ℤ) : ℚ :=
  data.getD (candIdx width data mouseX off) 0

/-- The peak test of `Spectragraph.findNearestPeak` at a data index:
the index window guard `dataIndex > 1 && dataIndex < data.length - 2`,
strict dominance over the two neighbours on each side, and the minimum
height threshold `value > 0.05` (0.05 = 1/20). -/
def isStrictPeakAt (data : List ℚ) (idx : ℕ) : Prop :=
  1 < idx ∧ idx < data.length - 2 ∧
  data.getD (idx - 2) 0 < data.getD idx 0 ∧
  data.getD (idx - 1) 0 < data.getD idx 0 ∧
  data.getD (idx + 1) 0 < data.getD idx 0 ∧
  data.getD (idx + 2) 0 < data.getD idx 0 ∧
  mkRat 1 20 < data.getD idx 0

instance (data : List ℚ) (idx : ℕ) : Decidable (isStrictPeakAt data idx) := by
  unfold isStrictPeakAt; infer_instance

/-- An offset qualifies when its x lies in the canvas and its data
index passes the peak test. -/
def qualifies (width : ℕ) (data : List ℚ) (mouseX : ℕ) (off : ℤ) : Prop :=
  inCanvas width mouseX off ∧ isStrictPeakAt data (candIdx width data mouseX off)

instance (width : ℕ) (data : List ℚ) (mouseX : ℕ) (off : ℤ) :
    Decidable (qualifies width data mouseX off) := by
  unfold qualifies; infer_instance

/-- One iteration of the `findNearestPeak` search loop: the accumulator
(peakX, peakValue) is replaced exactly when the scanned position is in
the canvas, passes the peak test, and its value strictly exceeds the
running `peakValue` (`value > peakValue` in the source). -/
def peakStep (width : ℕ) (data : List ℚ) (mouseX : ℕ) (acc : ℕ × ℚ) (off : ℤ) :
    ℕ × ℚ :=
  if qualifies width data mouseX off ∧ acc.2 < candVal width data mouseX off then
    (candX mouseX off, candVal width data mouseX off)
  else acc

/-- The offsets scanned by `findNearestPeak`:
`-searchRadius .. searchRadius` with `searchRadius = 10`. -/
def searchOffsets : List ℤ := (List.range 21).map (fun i => (i : ℤ) - 10)

/-- `Spectragraph.findNearestPeak` from src/js/spectragraph.js: start
from the cursor position and the data value under the cursor, scan the
±10-pixel window, and keep the best qualifying candidate; the result is
the pair (peakX, peakValue). -/
def findNearestPeak (width : ℕ) (data : List ℚ) (mouseX : ℕ) : ℕ × ℚ :=
  searchOffsets.foldl (peakStep width data mouseX)
    (mouseX, data.getD (mouseX * data.length / width) 0)

/-- A synthetic 31-sample profile with a single sharp maximum 1.0 at
index 15 and strictly decreasing neighbours on both sides
(value 1 - |i - 15| / 20). -/
def sharpProfile : List ℚ :=
  (List.range 31).map
    (fun i => mkRat (20 - ((if i ≤ 15 then 15 - i else i - 15 : ℕ) : ℤ)) 20)

/-- A profile on which the claimed fallback rule fails: index 2 is a
qualifying peak of height 1/2, but the cursor at index 5 sits on a
plateau of height 9/10 (indices 5 and 6), so no candidate exceeds the
running initial peakValue. -/
def plateauProfile : List ℚ :=
  [0, 0, mkRat 1 2, 0, 0, mkRat 9 10, mkRat 9 10,
    0, 0, 0, 0, 0, 0, 0, 0, 0, 0, 0, 0, 0, 0]

/-- The `{raw, corrected}` pair returned by
`Spectragraph.getCurrentData` (both arrays always exist in the live
class, so the interesting case is their common length). -/
structure CurrentData where
  raw : List ℚ
  corrected : List ℚ
deriving DecidableEq

/-- The error cases that `RecordingManager.checkRecordingPossible` can
throw. -/
inductive RecError
  | notReady
  | noStream
  | webmUnsupported
deriving DecidableEq

/-- JavaScript `!` applied to a Number: true exactly on 0 (and NaN). -/
def jsNotNum (n : ℕ) : Bool := n == 0

/-- JavaScript strict equality `===` between a Boolean and a Number:
always false, because the operands have different types.  This models
the subexpression `!data.raw.length === 0`, where `!` binds tighter
than `===`, so a Boolean is compared against the number 0. -/
def jsStrictEqBoolNum (b : Bool) (n : ℕ) : Bool := false

/-- `RecordingManager.checkRecordingPossible` from the recording-manager
module: throw when `!data || !data.raw || !data.raw.length === 0`
(the middle disjunct is false whenever data is present, because
`data.raw` is then an array and arrays are truthy); then, when raw
video is requested, throw when no camera stream is available or WebM
recording is unsupported; otherwise resolve true. -/
def checkRecordingPossible (data : Option CurrentData) (recordRawVideo : Bool)
    (streamAvailable webmSupported : Bool) : Except RecError Bool :=
  if data.isNone || false ||
      jsStrictEqBoolNum (jsNotNum ((data.getD ⟨[], []⟩).raw.length)) 0 then
    .error .notReady
  else if recordRawVideo && !streamAvailable then .error .noStream
  else if recordRawVideo && !webmSupported then .error .webmUnsupported
  else .ok true

/-- `RecordingManager.startRecording`, reduced to what the claim is
about: when `checkRecordingPossible` resolves, the spectral-data buffer
is reset and the sampling interval timer is started (result true);
when it throws, the error is alerted and nothing is started
(result false). -/
def startRecording (data : Option CurrentData) (recordRawVideo : Bool)
    (streamAvailable webmSupported : Bool) : Bool :=
  match checkRecordingPossible data recordRawVideo streamAvailable webmSupported with
  | .ok _ => true
  | .error _ => false

/-- A rectangular region of interest `{startX, stopX, startY, stopY}`. -/
structure Roi where
  startX : ℕ
  stopX : ℕ
  startY : ℕ
  stopY : ℕ
deriving DecidableEq

/-- Average of the green channel of one column of an RGBA buffer over
`height` rows, normalized by 255, as in `ImageProcessor.processFrame`:
`sum += data[(y * width + x) * 4 + 1]` then `sum / (height * 255)`. -/
def columnAverage (data : ℕ → ℕ) (width height x : ℕ) : ℚ :=
  (((List.range height).map (fun y => ((data ((y * width + x) * 4 + 1) : ℕ) : ℚ))).sum) /
    ((height : ℚ) * 255)

/-- The crop performed by `getImageData(startX, startY, stopX - startX,
stopY - startY)`: flat RGBA index i of the cropped buffer mapped onto
the flat RGBA index of the full frame of width `fullWidth`. -/
def cropData (frame : ℕ → ℕ) (fullWidth : ℕ) (roi : Roi) : ℕ → ℕ :=
  fun i =>
    let width := roi.stopX - roi.startX
    let pix := i / 4
    let c := i % 4
    frame (((roi.startY + pix / width) * fullWidth + (roi.startX + pix % width)) * 4 + c)

/-- `ImageProcessor.processFrame` from src/js/imageProcessor.js, the
spectral extraction: crop the frame to the ROI, then produce one
green-channel column average per column of the region. -/
def processFrameSpectrum (frame : ℕ → ℕ) (fullWidth : ℕ) (roi : Roi) : List ℚ :=
  let width := roi.stopX - roi.startX
  let height := roi.stopY - roi.startY
  (List.range width).map (fun x => columnAverage (cropData frame fullWidth roi) width height x)

/-- `ImageProcessor.getQECorrection` from the source: a stub that
returns 1.0 for every wavelength ("Return 1.0 if no correction
available"). -/
def getQECorrection (wavelength : ℚ) : ℚ := 1

/-- The QE branch of `ImageProcessor.processImageData`: multiply the
column average by `getQECorrection` only when the selected profile is
not "none" and QE data has been loaded (`this.qeData` is non-null;
nothing in the sources ever assigns it). -/
def applyQE (qeProfile : String) (qeDataLoaded : Bool) (wavelength avg : ℚ) : ℚ :=
  if qeProfile ≠ "none" ∧ qeDataLoaded then avg * getQECorrection wavelength else avg

/-- Modelled from the spec (for comparison with the code's
`getQECorrection`): "piecewise-linear interpolation between the two
profile points bracketing wavelength; clamps to nearest endpoint
outside the profile's domain; the None profile returns 1
unconditionally".  The profile is its ordered list of
(wavelengthNm, efficiency) control points; the empty list is the None
profile. -/
def efficiencySpec : List (ℚ × ℚ) → ℚ → ℚ
  | [], _ => 1
  | [p], _ => p.2
  | p :: q :: rest, w =>
    if w ≤ p.1 then p.2
    else if w ≤ q.1 then p.2 + (w - p.1) * (q.2 - p.2) / (q.1 - p.1)
    else efficiencySpec (q :: rest) w

/-- The wavelength written for sample index i of a recorded frame in
`RecordingManager.collectSpectralData`:
`range.start + i * (range.end - range.start) / (dataLength - 1)` with
`range = spectragraph.calculateSensorRange()`. -/
def recordedWavelength (r : RangeNm) (len i : ℕ) : ℚ :=
  r.start + (i : ℚ) * ((r.stop - r.start) / ((len : ℚ) - 1))

/-- The pixel position written for row i of the spectrum CSV in
`Spectragraph.exportToCSV`: `Math.round((i / data.length) * 1920)`. -/
def csvPixelPos (len i : ℕ) : ℤ := jsRound ((i : ℚ) / (len : ℚ) * 1920)

/-- The wavelength written for row i of the spectrum CSV:
`startWavelength + pixelPos * wavelengthStep` under the calibration's
linear map. -/
def csvWavelength (c : Calibration) (len i : ℕ) : ℚ :=
  startWavelength c + (csvPixelPos len i : ℚ) * wavelengthPerPixel c

set_option maxRecDepth 10000

/-- One-decimal rounding is monotone. -/
theorem round1_mono {a b : ℚ} (h : a ≤ b) : round1 a ≤ round1 b := by
  unfold round1 jsRound
  have hf : (⌊a * 10 + 1/2⌋ : ℤ) ≤ ⌊b * 10 + 1/2⌋ :=
    Int.floor_le_floor (by linarith)
  have hc : ((⌊a * 10 + 1/2⌋ : ℤ) : ℚ) ≤ ((⌊b * 10 + 1/2⌋ : ℤ) : ℚ) := by
    exact_mod_cast hf
  linarith

/-- The sensor range is ordered for every calibration, because the two
edge wavelengths pass through min/max before rounding. -/
theorem sensorRange_ordered (c : Calibration) :
    (calculateSensorRange c).start ≤ (calculateSensorRange c).stop := by
  unfold calculateSensorRange
  exact round1_mono min_le_max

/-- The clamp-and-test never touches the stored calibration. -/
theorem clampUpdate_calibration (a b : ℚ) (s : ViewState) :
    (clampUpdate a b s).calibration = s.calibration := by
  unfold clampUpdate
  dsimp only
  split <;> rfl

/-- The clamp-and-test either leaves the state unchanged or commits a
display range contained in the sensor range with span at least 50. -/
theorem clampUpdate_cases (a b : ℚ) (s : ViewState) :
    clampUpdate a b s = s ∨ zoomInv (clampUpdate a b s) := by
  unfold clampUpdate
  dsimp only
  split
  · next hc => exact Or.inr ⟨le_max_left _ _, min_le_left _ _, hc⟩
  · exact Or.inl rfl

/-- One `handleZoom` step preserves containment in the sensor range and
the 50 nm minimum span. -/
theorem zoomInv_handleZoom (w mx dy : ℚ) (s : ViewState) (h : zoomInv s) :
    zoomInv (handleZoom w mx dy s) := by
  unfold handleZoom
  dsimp only
  rcases clampUpdate_cases
      (xToWavelength w s mx -
        (xToWavelength w s mx - s.displayRange.start) /
            (s.displayRange.stop - s.displayRange.start) *
          (if dy < 0 then (s.displayRange.stop - s.displayRange.start) / (11/10)
            else (s.displayRange.stop - s.displayRange.start) * (11/10)))
      (xToWavelength w s mx -
        (xToWavelength w s mx - s.displayRange.start) /
            (s.displayRange.stop - s.displayRange.start) *
          (if dy < 0 then (s.displayRange.stop - s.displayRange.start) / (11/10)
            else (s.displayRange.stop - s.displayRange.start) * (11/10)) +
        (if dy < 0 then (s.displayRange.stop - s.displayRange.start) / (11/10)
          else (s.displayRange.stop - s.displayRange.start) * (11/10))) s with
    heq | hinv
  · rw [heq]; exact h
  · exact hinv

/-- C1: the claim states that any sequence of `handleZoom` operations
keeps the display span in [MIN_SPAN = 100 nm, MAX_SPAN = 2000 nm] and
the display range inside the sensor range, rejecting zooms that would
leave those bounds.  The live implementation instead enforces a 50 nm
minimum span and clamps (rather than rejects) at the sensor-range
edges; this amended invariant — display range contained in the sensor
range with span at least 50 nm — is preserved by every finite sequence
of zoom operations with arbitrary cursor positions and scroll deltas. -/
theorem C1_zoom_invariant (inputs : List (ℚ × ℚ × ℚ)) (s : ViewState)
    (h : zoomInv s) : zoomInv (zoomSeq inputs s) := by
  induction inputs generalizing s with
  | nil => exact h
  | cons p l ih => exact ih (handleZoom p.1 p.2.1 p.2.2 s) (zoomInv_handleZoom p.1 p.2.1 p.2.2 s h)

/-- Witness for C1: the initial state satisfies the invariant, and so
does the state after a one-element zoom sequence. -/
theorem C1_zoom_invariant_witness :
    zoomInv s0 ∧ zoomInv (zoomSeq [(960, 0, -1)] s0) :=
  ⟨by norm_num [zoomInv, s0, cal0, calculateSensorRange, startWavelength,
      wavelengthPerPixel, round1, jsRound, min_def, max_def],
   C1_zoom_invariant [(960, 0, -1)] s0
     (by norm_num [zoomInv, s0, cal0, calculateSensorRange, startWavelength,
        wavelengthPerPixel, round1, jsRound, min_def, max_def])⟩

/-- Counterexample for C1 as stated: starting from the reachable state
`updateDisplayRange(350, 455)` applied to the initial state — a state
whose span is 105 nm, inside the claimed bounds and inside the sensor
range — a single zoom-in is accepted and produces a span of
1050/11 ≈ 95.45 nm, strictly below the claimed MIN_SPAN = 100 nm. -/
theorem C1_span_below_100_cex :
    100 ≤ (updateDisplayRange 350 455 s0).displayRange.stop -
      (updateDisplayRange 350 455 s0).displayRange.start ∧
    zoomInv (updateDisplayRange 350 455 s0) ∧
    (handleZoom 960 0 (-1) (updateDisplayRange 350 455 s0)).displayRange.stop -
      (handleZoom 960 0 (-1) (updateDisplayRange 350 455 s0)).displayRange.start < 100 := by
  norm_num [handleZoom, updateDisplayRange, clampUpdate, xToWavelength, zoomInv, calculateSensorRange,
    startWavelength, wavelengthPerPixel, round1, jsRound, s0, cal0, min_def, max_def]

/-- C2: for every non-degenerate calibration — including those with
p2.pixel < p1.pixel, whose slope is negative — `calculateSensorRange`
returns an ordered pair, start ≤ end, because min and max of the two
edge wavelengths are taken regardless of the slope sign. -/
theorem C2_sensorRange_ordered (c : Calibration)
    (h : c.point1.x ≠ c.point2.x) :
    (calculateSensorRange c).start ≤ (calculateSensorRange c).stop :=
  sensorRange_ordered c

/-- Witness for C2 at the default calibration, whose p2.pixel = 1238 is
less than p1.pixel = 1623. -/
theorem C2_sensorRange_ordered_witness :
    cal0.point2.x < cal0.point1.x ∧
    (calculateSensorRange cal0).start ≤ (calculateSensorRange cal0).stop :=
  ⟨by norm_num [cal0], C2_sensorRange_ordered cal0 (by norm_num [cal0])⟩

/-- C3 (amended): with the default calibration the slope is
-1031/1925 ≈ -0.5356 as the claim computes, but `calculateSensorRange`
evaluates the linear map at pixel 0 and pixel 1920 (not 1919) and
returns {start: 246.3, end: 1274.7} after one-decimal rounding — not
the {start: 175.9, end: 1254.5} the claim asserts. -/
theorem C3_sensorRange_worked_example :
    calculateSensorRange cal0 = ⟨2463/10, 12747/10⟩ ∧
    wavelengthPerPixel cal0 = -1031/1925 ∧
    0 < wavelengthPerPixel cal0 + 5356/10000 ∧
    wavelengthPerPixel cal0 + 5356/10000 < 1/10000 := by
  norm_num [calculateSensorRange, startWavelength, wavelengthPerPixel, round1,
    jsRound, cal0, min_def, max_def, RangeNm.mk.injEq]

/-- Counterexample for C3 as stated: the computed sensor range start is
70.4 nm away from the claimed 175.9 and the end is 20.2 nm away from
the claimed 1254.5, so the claimed values are not approximately
attained. -/
theorem C3_worked_example_cex :
    (calculateSensorRange cal0).start - 1759/10 = 704/10 ∧
    (calculateSensorRange cal0).stop - 12545/10 = 202/10 := by
  norm_num [calculateSensorRange, startWavelength, wavelengthPerPixel, round1,
    jsRound, cal0, min_def, max_def]

/-- C4 (amended): with sensor range {200, 1200} the call
`updateDisplayRange(100, 150)` is NOT rejected: the bounds are clamped
to start = max(200, min(100, 1150)) = 200 and
end = min(1200, max(150, 250)) = 250, the clamped span 50 nm passes
the 50 nm test, and the display range becomes {200, 250}.  In general
the operation either leaves the state unchanged or produces a display
range contained in the sensor range with span at least 50 nm; there is
no start ≥ end check and the minimum span is 50 nm, not MIN_SPAN =
100 nm. -/
theorem C4_updateDisplayRange_clamps :
    (updateDisplayRange 100 150 sExample).displayRange = ⟨200, 250⟩ ∧
    ∀ (s : ViewState) (a b : ℚ),
      updateDisplayRange a b s = s ∨
      ((calculateSensorRange s.calibration).start ≤
          (updateDisplayRange a b s).displayRange.start ∧
        (updateDisplayRange a b s).displayRange.stop ≤
          (calculateSensorRange s.calibration).stop ∧
        50 ≤ (updateDisplayRange a b s).displayRange.stop -
          (updateDisplayRange a b s).displayRange.start) := by
  constructor
  · norm_num [updateDisplayRange, clampUpdate, calculateSensorRange, startWavelength,
      wavelengthPerPixel, round1, jsRound, sExample, calExample, min_def, max_def,
      RangeNm.mk.injEq]
  · intro s a b
    show clampUpdate a b s = s ∨ _
    rcases clampUpdate_cases a b s with heq | hinv
    · exact Or.inl heq
    · right
      obtain ⟨h1, h2, h3⟩ := hinv
      rw [clampUpdate_calibration a b s] at h1 h2
      exact ⟨h1, h2, h3⟩

/-- Counterexample for C4 as stated: with sensor range {200, 1200} the
call `updateDisplayRange(100, 150)` changes the state, setting the
display range to {200, 250} instead of rejecting the request. -/
theorem C4_updateDisplayRange_cex :
    calculateSensorRange calExample = ⟨200, 1200⟩ ∧
    updateDisplayRange 100 150 sExample ≠ sExample ∧
    (updateDisplayRange 100 150 sExample).displayRange = ⟨200, 250⟩ := by
  refine ⟨?_, ?_, ?_⟩ <;>
    norm_num [updateDisplayRange, clampUpdate, calculateSensorRange, startWavelength,
      wavelengthPerPixel, round1, jsRound, sExample, calExample, min_def, max_def,
      RangeNm.mk.injEq, ViewState.mk.injEq]

/-- C5 (amended): `updateCalibration` performs no validation at all: it
replaces the stored calibration with the two given points
unconditionally — even when p1.x = p2.x — touching nothing else of the
state.  The only guard in the sources is the NaN check of the main.js
click handler, which leaves the state unchanged when any of the four
parsed inputs is NaN. -/
theorem C5_updateCalibration_unconditional :
    (∀ (p q : CalPoint) (s : ViewState),
      (updateCalibration p q s).calibration = ⟨p, q⟩ ∧
      (updateCalibration p q s).displayRange = s.displayRange) ∧
    ∀ (i1x i1w i2x i2w : Option ℚ) (s : ViewState),
      (i1x = none ∨ i1w = none ∨ i2x = none ∨ i2w = none) →
      calibrateClick i1x i1w i2x i2w s = s := by
  constructor
  · intro p q s; exact ⟨rfl, rfl⟩
  · intro i1x i1w i2x i2w s h
    cases i1x <;> cases i1w <;> cases i2x <;> cases i2w <;>
      simp_all [calibrateClick]

/-- Witness for C5: a degenerate pair of points (equal pixel) is stored
verbatim, and a NaN first input leaves the state unchanged. -/
theorem C5_updateCalibration_witness :
    (updateCalibration ⟨100, 400⟩ ⟨100, 500⟩ s0).calibration =
      ⟨⟨100, 400⟩, ⟨100, 500⟩⟩ ∧
    calibrateClick none (some 1) (some 2) (some 3) s0 = s0 :=
  ⟨(C5_updateCalibration_unconditional.1 ⟨100, 400⟩ ⟨100, 500⟩ s0).1,
   C5_updateCalibration_unconditional.2 none (some 1) (some 2) (some 3) s0
     (Or.inl rfl)⟩

/-- Counterexample for C5 as stated: the claim says a calibration with
p1.pixel = p2.pixel is rejected and the previous calibration retained;
in the code the degenerate pair replaces the stored calibration. -/
theorem C5_degenerate_accepted_cex :
    (⟨100, 400⟩ : CalPoint).x = (⟨100, 500⟩ : CalPoint).x ∧
    (updateCalibration ⟨100, 400⟩ ⟨100, 500⟩ s0).calibration ≠ s0.calibration := by
  constructor
  · rfl
  · norm_num [updateCalibration, s0, cal0, Calibration.mk.injEq, CalPoint.mk.injEq]

/-- C6 (code-bug evidence): the guard of `checkRecordingPossible` is
`!data || !data.raw || !data.raw.length === 0`; since `!` binds
tighter than `===`, the third disjunct compares a Boolean with the
number 0 and is always false.  Hence with spectral data present but
EMPTY (raw.length = 0, where `!data.raw.length` is true), the check
still resolves true and `startRecording` begins a session and starts
the sampling timer, instead of failing with NotReady as the claim and
the intended emptiness check require. -/
theorem C6_empty_data_recording_starts :
    jsNotNum (([] : List ℚ).length) = true ∧
    jsStrictEqBoolNum (jsNotNum (([] : List ℚ).length)) 0 = false ∧
    checkRecordingPossible (some ⟨[], []⟩) false false false = .ok true ∧
    startRecording (some ⟨[], []⟩) false false false = true := by
  refine ⟨rfl, rfl, ?_, ?_⟩ <;> rfl

/-- The running peak value never decreases along one step of the
`findNearestPeak` scan. -/
theorem peakStep_snd_le (width : ℕ) (data : List ℚ) (mouseX : ℕ)
    (acc : ℕ × ℚ) (off : ℤ) :
    acc.2 ≤ (peakStep width data mouseX acc off).2 := by
  unfold peakStep
  split
  · next h => exact le_of_lt h.2
  · exact le_refl _

/-- The running peak value never decreases along the whole scan. -/
theorem foldl_peakStep_snd_le (width : ℕ) (data : List ℚ) (mouseX : ℕ) :
    ∀ (l : List ℤ) (acc : ℕ × ℚ),
      acc.2 ≤ (l.foldl (peakStep width data mouseX) acc).2 := by
  intro l
  induction l with
  | nil => intro acc; exact le_refl _
  | cons hd tl ih =>
    intro acc
    rw [List.foldl_cons]
    exact le_trans (peakStep_snd_le width data mouseX acc hd) (ih _)

/-- Maximality of the scan: the final peak value dominates the value of
every qualifying offset of the scanned window. -/
theorem foldl_peakStep_le (width : ℕ) (data : List ℚ) (mouseX : ℕ) :
    ∀ (l : List ℤ) (acc : ℕ × ℚ) (off : ℤ), off ∈ l →
      qualifies width data mouseX off →
      candVal width data mouseX off ≤ (l.foldl (peakStep width data mouseX) acc).2 := by
  intro l
  induction l with
  | nil => intro acc off h; cases h
  | cons hd tl ih =>
    intro acc off hmem hq
    rw [List.foldl_cons]
    rcases List.mem_cons.mp hmem with heq | htl
    · subst heq
      refine le_trans ?_ (foldl_peakStep_snd_le width data mouseX tl _)
      unfold peakStep
      split
      · exact le_refl _
      · next hn =>
        push_neg at hn
        exact hn hq
    · exact ih _ off htl hq

/-- Shape of the scan result: either the accumulator is returned
unchanged, or the result is a qualifying offset of the window whose
value strictly exceeds the initial peak value. -/
theorem foldl_peakStep_shape (width : ℕ) (data : List ℚ) (mouseX : ℕ) :
    ∀ (l : List ℤ) (acc : ℕ × ℚ),
      l.foldl (peakStep width data mouseX) acc = acc ∨
      ∃ off ∈ l, qualifies width data mouseX off ∧
        l.foldl (peakStep width data mouseX) acc =
          (candX mouseX off, candVal width data mouseX off) ∧
        acc.2 < candVal width data mouseX off := by
  intro l
  induction l with
  | nil => intro acc; exact Or.inl rfl
  | cons hd tl ih =>
    intro acc
    rw [List.foldl_cons]
    by_cases hc : qualifies width data mouseX hd ∧ acc.2 < candVal width data mouseX hd
    · have hstep : peakStep width data mouseX acc hd =
          (candX mouseX hd, candVal width data mouseX hd) := by
        unfold peakStep; rw [if_pos hc]
      rw [hstep]
      rcases ih (candX mouseX hd, candVal width data mouseX hd) with
        heq | ⟨off, hmem, hq, heq, hlt⟩
      · exact Or.inr ⟨hd, List.mem_cons_self hd tl, hc.1, heq, hc.2⟩
      · exact Or.inr ⟨off, List.mem_cons_of_mem hd hmem, hq, heq, lt_trans hc.2 hlt⟩
    · have hstep : peakStep width data mouseX acc hd = acc := by
        unfold peakStep; rw [if_neg hc]
      rw [hstep]
      rcases ih acc with heq | ⟨off, hmem, hq, heq, hlt⟩
      · exact Or.inl heq
      · exact Or.inr ⟨off, List.mem_cons_of_mem hd hmem, hq, heq, hlt⟩

/-- C7 (amended): `findNearestPeak` scans the ±10-pixel window and
returns the highest candidate that is strictly greater than its two
neighbours on each side, exceeds the 0.05 threshold, AND strictly
exceeds the data value under the cursor; when no candidate beats the
cursor value it returns the cursor position with the value under the
cursor (the claim omits the "exceeds the value at the cursor"
condition).  For the synthetic profile with a single sharp maximum 1.0
at index 15 and strictly decreasing neighbours, the scan returns index
15 for every cursor position within the search radius. -/
theorem C7_findNearestPeak_characterization :
    (∀ (width : ℕ) (data : List ℚ) (mouseX : ℕ),
      data.getD (mouseX * data.length / width) 0 ≤ (findNearestPeak width data mouseX).2 ∧
      (findNearestPeak width data mouseX =
          (mouseX, data.getD (mouseX * data.length / width) 0) ∨
        ∃ off ∈ searchOffsets, qualifies width data mouseX off ∧
          findNearestPeak width data mouseX =
            (candX mouseX off, candVal width data mouseX off) ∧
          data.getD (mouseX * data.length / width) 0 < candVal width data mouseX off) ∧
      (∀ off ∈ searchOffsets, qualifies width data mouseX off →
        candVal width data mouseX off ≤ (findNearestPeak width data mouseX).2)) ∧
    ∀ x : ℕ, 5 ≤ x → x ≤ 25 → findNearestPeak 31 sharpProfile x = (15, 1) := by
  constructor
  · intro width data mouseX
    refine ⟨foldl_peakStep_snd_le width data mouseX searchOffsets _, ?_,
      fun off hm hq => foldl_peakStep_le width data mouseX searchOffsets _ off hm hq⟩
    rcases foldl_peakStep_shape width data mouseX searchOffsets
        (mouseX, data.getD (mouseX * data.length / width) 0) with heq | ⟨off, hm, hq, heq, hlt⟩
    · exact Or.inl heq
    · exact Or.inr ⟨off, hm, hq, heq, hlt⟩
  · intro x h5 h25
    interval_cases x <;> decide

/-- Witness for C7: at cursor 15 on the sharp profile the peak itself
is returned, and on the plateau profile the qualifying candidate at
offset -3 is dominated by the returned value. -/
theorem C7_findNearestPeak_witness :
    findNearestPeak 31 sharpProfile 15 = (15, 1) ∧
    candVal 21 plateauProfile 5 (-3) ≤ (findNearestPeak 21 plateauProfile 5).2 :=
  ⟨C7_findNearestPeak_characterization.2 15 (by decide) (by decide),
   (C7_findNearestPeak_characterization.1 21 plateauProfile 5).2.2 (-3)
     (by decide) (by decide)⟩

/-- Counterexample for C7 as stated: on the plateau profile the index 2
(offset -3 from the cursor at 5) is a qualifying peak — strictly above
its two neighbours on each side and above the 0.05 threshold — yet
`findNearestPeak` returns the cursor fallback (5, 9/10), not the
highest qualifying candidate (2, 1/2), because the candidate does not
exceed the data value under the cursor. -/
theorem C7_fallback_cex :
    qualifies 21 plateauProfile 5 (-3) ∧
    candX 5 (-3) = 2 ∧
    candVal 21 plateauProfile 5 (-3) = mkRat 1 2 ∧
    findNearestPeak 21 plateauProfile 5 = (5, mkRat 9 10) ∧
    findNearestPeak 21 plateauProfile 5 ≠ (2, mkRat 1 2) := by decide

/-- C8: on a frame whose green (intensity) channel is uniformly 128 and
an ROI of height 50 rows, the extractor returns one value per column
of [startX, stopX) — output length stopX - startX — and every value is
exactly 128/255. -/
theorem C8_extract_uniform_frame (frame : ℕ → ℕ) (fullWidth : ℕ) (roi : Roi)
    (hGreen : ∀ i, i % 4 = 1 → frame i = 128)
    (hH : roi.stopY - roi.startY = 50)
    (hX : roi.startX < roi.stopX) :
    (processFrameSpectrum frame fullWidth roi).length = roi.stopX - roi.startX ∧
    ∀ k, k < roi.stopX - roi.startX →
      (processFrameSpectrum frame fullWidth roi).getD k 0 = 128/255 := by
  have hval : ∀ x, columnAverage (cropData frame fullWidth roi)
      (roi.stopX - roi.startX) (roi.stopY - roi.startY) x = 128/255 := by
    intro x
    rw [hH]
    unfold columnAverage
    have hterm : ∀ y ∈ List.range 50,
        ((cropData frame fullWidth roi ((y * (roi.stopX - roi.startX) + x) * 4 + 1) : ℕ) : ℚ)
          = ((128 : ℕ) : ℚ) := by
      intro y _
      unfold cropData
      dsimp only
      have h4 : ((y * (roi.stopX - roi.startX) + x) * 4 + 1) / 4 =
          y * (roi.stopX - roi.startX) + x := by omega
      have hm : ((y * (roi.stopX - roi.startX) + x) * 4 + 1) % 4 = 1 := by omega
      rw [h4, hm, hGreen _ (by omega)]
    rw [List.map_congr_left hterm, List.map_const', List.sum_replicate,
      List.length_range]
    norm_num
  constructor
  · unfold processFrameSpectrum
    dsimp only
    rw [List.length_map, List.length_range]
  · intro k hk
    unfold processFrameSpectrum
    dsimp only
    rw [List.getD_eq_getElem?_getD, List.getElem?_map, List.getElem?_range hk]
    simp only [Option.map_some', Option.getD_some]
    exact hval k

/-- Witness for C8: a uniform all-128 frame with ROI
{startX: 0, stopX: 2, startY: 0, stopY: 50}. -/
theorem C8_extract_uniform_frame_witness :
    (processFrameSpectrum (fun _ => 128) 1920 ⟨0, 2, 0, 50⟩).length = 2 - 0 ∧
    (processFrameSpectrum (fun _ => 128) 1920 ⟨0, 2, 0, 50⟩).getD 0 0 = 128/255 := by
  have h := C8_extract_uniform_frame (fun _ => 128) 1920 ⟨0, 2, 0, 50⟩
    (fun i _ => rfl) rfl (by decide)
  exact ⟨h.1, h.2 0 (by decide)⟩

/-- C9 (amended): `correct(w, r) = r * efficiency(w)` holds, but
`efficiency` is not the claimed piecewise-linear interpolation: the
code's `getQECorrection` is a stub that returns 1.0 unconditionally
(and `this.qeData` is never assigned, so the multiplication branch is
dead anyway), making the QE correction the identity for every profile
and wavelength. -/
theorem C9_qe_identity :
    (∀ (qeProfile : String) (qeDataLoaded : Bool) (w avg : ℚ),
      applyQE qeProfile qeDataLoaded w avg = avg) ∧
    ∀ w : ℚ, getQECorrection w = 1 := by
  constructor
  · intro p l w a
    unfold applyQE getQECorrection
    split <;> simp
  · intro w
    rfl

/-- Counterexample for C9 as stated: for a two-point profile
[(400, 1/2), (600, 9/10)], the spec's piecewise-linear efficiency at
500 nm is 7/10, while the code's efficiency is 1. -/
theorem C9_interpolation_cex :
    getQECorrection 500 = 1 ∧
    efficiencySpec [(400, 1/2), (600, 9/10)] 500 = 7/10 ∧
    efficiencySpec [(400, 1/2), (600, 9/10)] 500 ≠ getQECorrection 500 := by
  refine ⟨rfl, ?_, ?_⟩ <;>
    norm_num [efficiencySpec, getQECorrection]

/-- C10: the wavelength axis recorded on every sampling tick is the
uniform grid range.start + i * (range.end - range.start) / (len - 1)
over the ordered sensor range, hence monotonically non-decreasing in
the sample index for every non-degenerate calibration; when the
calibration slope is negative the per-pixel wavelengths of the
spectrum CSV export decrease with the pixel index, so the recorded
axis follows the ordered sensor range, not the pixel-to-wavelength
calibration map. -/
theorem C10_recorded_axis_monotone (c : Calibration) (len i j : ℕ)
    (hx : c.point1.x ≠ c.point2.x) (hlen : 2 ≤ len) (hij : i ≤ j) (hj : j < len) :
    recordedWavelength (calculateSensorRange c) len i ≤
      recordedWavelength (calculateSensorRange c) len j ∧
    (wavelengthPerPixel c < 0 → csvWavelength c len j ≤ csvWavelength c len i) := by
  constructor
  · unfold recordedWavelength
    have hord := sensorRange_ordered c
    have hden : (0 : ℚ) < (len : ℚ) - 1 := by
      have h2 : (2 : ℚ) ≤ (len : ℚ) := by exact_mod_cast hlen
      linarith
    have hstep : 0 ≤ ((calculateSensorRange c).stop - (calculateSensorRange c).start) /
        ((len : ℚ) - 1) := div_nonneg (by linarith) (le_of_lt hden)
    have hij' : (i : ℚ) ≤ (j : ℚ) := by exact_mod_cast hij
    have := mul_le_mul_of_nonneg_right hij' hstep
    linarith
  · intro hneg
    unfold csvWavelength
    have hlen0 : (0 : ℚ) < (len : ℚ) := by
      have h2 : (2 : ℚ) ≤ (len : ℚ) := by exact_mod_cast hlen
      linarith
    have hpix : csvPixelPos len i ≤ csvPixelPos len j := by
      unfold csvPixelPos jsRound
      apply Int.floor_le_floor
      have hij' : (i : ℚ) ≤ (j : ℚ) := by exact_mod_cast hij
      gcongr
    have hpix' : (csvPixelPos len i : ℚ) ≤ (csvPixelPos len j : ℚ) := by
      exact_mod_cast hpix
    have := mul_le_mul_of_nonpos_right hpix' (le_of_lt hneg)
    linarith

/-- Witness for C10 at the default calibration (negative slope) with
the 960-sample data length of the live pipeline. -/
theorem C10_recorded_axis_witness :
    recordedWavelength (calculateSensorRange cal0) 960 0 ≤
      recordedWavelength (calculateSensorRange cal0) 960 1 ∧
    csvWavelength cal0 960 1 ≤ csvWavelength cal0 960 0 := by
  have h := C10_recorded_axis_monotone cal0 960 0 1
    (by norm_num [cal0]) (by norm_num) (by norm_num) (by norm_num)
  exact ⟨h.1, h.2 (by norm_num [wavelengthPerPixel, cal0])⟩

end WebSpectrometer
